import Mathlib

/-!
# Safe Warner health monitor: a shallow embedding

This file embeds the session state machine and alerting policy of the
Safe Warner desktop wellness monitor (`core/health_monitor.py`,
`gui/main_window.py`, `utils/notifications.py`, `utils/constants.py`)
and proves or refutes the frozen specification claims about it.

Modelling conventions:
* Wall-clock instants are rationals (`ℚ`).  Every call to `time.time()`
  that the Python code makes inside one tick is modelled as the same
  instant `now`; successive calls within a tick are sub-frame apart.
* Python dicts keyed by strings become insertion-ordered association
  lists (`List (String × α)`), matching Python dict iteration order.
* Vision-derived per-frame signals (gaze bucket, proximity flag, EAR,
  posture verdict) are pure functions of the landmarks; the landmark
  geometry is outside every claim, so `process_frame` receives the
  extractor outputs as an input record, exactly at the interface where
  `process_frame` consumes them.
* External side effects (desktop notification calls, speech) are
  collected in an event list.  `fast_notify` returns a delivery Bool
  which the Python caller assigns to a local (`delivered`) and never
  reads; the embedding takes that Bool as a parameter.
* An uncaught Python exception is modelled by an `Option String` error
  component: the state keeps all mutations made before the raise point.
-/

namespace SafeWarner

/-- Insertion-ordered dict lookup (`d.get(k)`). -/
def dictGet {α : Type} (d : List (String × α)) (k : String) : Option α :=
  (d.find? (fun p => p.1 == k)).map (fun p => p.2)

/-- `d.get(k, v)` with a default. -/
def dictGetD {α : Type} (d : List (String × α)) (k : String) (v : α) : α :=
  (dictGet d k).getD v

/-- `d[k] = v`: update in place when the key exists (Python dicts keep the
original insertion position; keys are unique), append otherwise. -/
def dictSet {α : Type} : List (String × α) → String → α → List (String × α)
  | [], k, v => [(k, v)]
  | p :: t, k, v => if p.1 == k then (k, v) :: t else p :: dictSet t k v

/-- Looking up the key just assigned returns the assigned value. -/
theorem dictGet_dictSet_self {α : Type} (d : List (String × α)) (k : String)
    (v : α) : dictGet (dictSet d k v) k = some v := by
  induction d with
  | nil => simp [dictGet, dictSet]
  | cons p t ih =>
    by_cases h : p.1 = k
    · simp [dictGet, dictSet, h]
    · simpa [dictGet, dictSet, h] using ih

/-- The corresponding fact for lookup with a default. -/
theorem dictGetD_dictSet_self {α : Type} (d : List (String × α)) (k : String)
    (v w : α) : dictGetD (dictSet d k v) k w = v := by
  simp [dictGetD, dictGet_dictSet_self]

/-! ## Constants (`utils/constants.py`) -/

def EAR_THRESHOLD : ℚ := 1/5
def PROXIMITY_THRESHOLD : ℚ := 7/20
def BLINK_WINDOW : ℚ := 10
def SCREEN_TIME_BREAK : ℚ := 20 * 60
def NOTIFICATION_COOLDOWN : ℚ := 30
def AUTO_MODE_INTERVAL : ℚ := 30

/-! ## Records kept in the session ledger (`session_data`) -/

/-- One entry of `session_data['alerts']`. -/
structure AlertRecord where
  timestamp : ℚ
  kind : String
  title : String
  message : String
  deriving Repr, DecidableEq

/-- One entry of `session_data['eye_exercises']`. -/
structure ExerciseRecord where
  timestamp : ℚ
  duration : ℚ
  success : Bool
  deriving Repr, DecidableEq

/-- Externally visible side effects of an operation. -/
inductive Event where
  /-- A `fast_notify(title, message, ...)` call made for alert kind `kind`. -/
  | notify (title message kind : String)
  /-- A `voice.speak(text)` call. -/
  | speak (text : String)
  /-- A `start_eye_exercise()` invocation happened. -/
  | exerciseStarted
  deriving Repr, DecidableEq

/-- The mutable state of `HealthMonitor` that the claims touch
(`HealthMonitor.__init__`). -/
structure Monitor where
  auto_mode : Bool
  auto_mode_interval : ℚ
  notification_cooldown : ℚ
  screen_time_break : ℚ
  session_start : ℚ
  last_break_time : ℚ
  last_notification : List (String × ℚ)
  alert_stats : List (String × ℕ)
  blink_timestamps : List ℚ
  eye_exercise_active : Bool
  eye_exercise_start_time : ℚ
  time_left : ℚ
  exercise_done : Bool
  current_phase : String
  countdown_active : Bool
  last_detection : String
  phase_start_time : ℚ
  paused_time_left : ℚ
  auto_mode_last_check : ℚ
  alerts : List AlertRecord
  eye_exercises : List ExerciseRecord
  psutil_available : Bool
  mediapipe_available : Bool
  deriving Repr, DecidableEq

/-- The freshly constructed monitor (`HealthMonitor.__init__` at instant
`t`, with the availability of the optional libraries as parameters). -/
def initMonitor (auto_mode : Bool) (t : ℚ) (psutil mediapipe : Bool) : Monitor :=
  { auto_mode := auto_mode
    auto_mode_interval := AUTO_MODE_INTERVAL
    notification_cooldown := NOTIFICATION_COOLDOWN
    screen_time_break := SCREEN_TIME_BREAK
    session_start := t
    last_break_time := t
    last_notification := []
    alert_stats := [("proximity", 0), ("posture", 0), ("blink_rate", 0),
                    ("screen_time", 0), ("system_health", 0), ("eye_exercise", 0)]
    blink_timestamps := []
    eye_exercise_active := false
    eye_exercise_start_time := 0
    time_left := 15
    exercise_done := false
    current_phase := "right"
    countdown_active := false
    last_detection := "center"
    phase_start_time := 0
    paused_time_left := 15
    auto_mode_last_check := t
    alerts := []
    eye_exercises := []
    psutil_available := psutil
    mediapipe_available := mediapipe }

/-! ## Cooldown gate (`should_notify`, `send_notification`) -/

/-- `HealthMonitor.should_notify`: true iff the cooldown has elapsed since
the last accepted notification of this kind (`.get(alert_type, 0)`). -/
def should_notify (m : Monitor) (now : ℚ) (alert_type : String) : Bool :=
  now - dictGetD m.last_notification alert_type 0 ≥ m.notification_cooldown

/-- `HealthMonitor.send_notification`.  `fnResult` is the Bool returned by
`fast_notify`; the source assigns it to a local variable `delivered` and
never reads it, so it influences nothing here. -/
def send_notification (m : Monitor) (now : ℚ) (title message alert_type : String)
    (fnResult : Bool) : Monitor × List Event :=
  if ¬ should_notify m now alert_type ∧ alert_type ≠ "eye_exercise" then
    (m, [])
  else
    let _ := fnResult
    ({ m with
        last_notification := dictSet m.last_notification alert_type now
        alert_stats := dictSet m.alert_stats alert_type
          (dictGetD m.alert_stats alert_type 0 + 1)
        alerts := m.alerts ++ [⟨now, alert_type, title, message⟩] },
     [Event.notify title message alert_type])

/-! ## Eye exercise state machine -/

/-- `HealthMonitor.start_eye_exercise`. -/
def start_eye_exercise (m : Monitor) (now : ℚ) : Monitor × List Event :=
  let m1 : Monitor :=
    { m with
        eye_exercise_active := true
        eye_exercise_start_time := now
        time_left := 15
        exercise_done := false
        current_phase := "right"
        countdown_active := false
        phase_start_time := now
        paused_time_left := 15 }
  let p := send_notification m1 now "Eye Exercise Time!"
      "Please look to the RIGHT side for 15 seconds" "eye_exercise" true
  (p.1, Event.exerciseStarted ::
        Event.speak "Eye exercise starting. Please look to the right for fifteen seconds." ::
        p.2)

/-- `HealthMonitor.update_eye_exercise`: advance the two-phase gaze-hold
countdown on one frame with gaze bucket `detection`. -/
def update_eye_exercise (m : Monitor) (now : ℚ) (detection : String) :
    Monitor × List Event :=
  if ¬ m.eye_exercise_active ∨ m.exercise_done then (m, [])
  else if m.current_phase = "right" then
    if detection = "right" then
      -- start the countdown on the first correct-gaze frame
      let m1 := if ¬ m.countdown_active then
          { m with countdown_active := true, phase_start_time := now,
                   time_left := m.paused_time_left }
        else m
      let elapsed := now - m1.phase_start_time
      let m2 := { m1 with time_left := max 0 (m1.paused_time_left - elapsed) }
      if m2.time_left ≤ 0 then
        let m3 := { m2 with current_phase := "left", countdown_active := false,
                            paused_time_left := 15, time_left := 15 }
        let p := send_notification m3 now "Good! Now look LEFT"
            "Please look to the LEFT side for 15 seconds" "eye_exercise" true
        (p.1, Event.speak "Good. Now look to the left for fifteen seconds." :: p.2)
      else (m2, [])
    else
      if m.countdown_active then
        let m1 := { m with countdown_active := false, paused_time_left := m.time_left }
        let p := send_notification m1 now "Keep Looking Right"
            "Please maintain your gaze to the RIGHT side to continue the exercise"
            "eye_exercise" true
        (p.1, Event.speak "Please keep looking right to continue." :: p.2)
      else (m, [])
  else if m.current_phase = "left" then
    if detection = "left" then
      let m1 := if ¬ m.countdown_active then
          { m with countdown_active := true, phase_start_time := now,
                   time_left := m.paused_time_left }
        else m
      let elapsed := now - m1.phase_start_time
      let m2 := { m1 with time_left := max 0 (m1.paused_time_left - elapsed) }
      if m2.time_left ≤ 0 then
        -- exercise complete
        let total_duration := now - m2.eye_exercise_start_time
        let m3 := { m2 with eye_exercise_active := false, exercise_done := true }
        let p := send_notification m3 now "Exercise Complete!"
            "Great job! Your eye exercise is complete." "eye_exercise" true
        let m4 := { p.1 with
            eye_exercises := p.1.eye_exercises ++
              [(⟨now, total_duration, true⟩ : ExerciseRecord)] }
        let m5 := if m4.auto_mode then { m4 with auto_mode_last_check := now } else m4
        (m5, Event.speak "Exercise complete. Great job." :: p.2)
      else (m2, [])
    else
      if m.countdown_active then
        let m1 := { m with countdown_active := false, paused_time_left := m.time_left }
        let p := send_notification m1 now "Keep Looking Left"
            "Please maintain your gaze to the LEFT side to continue the exercise"
            "eye_exercise" true
        (p.1, Event.speak "Please keep looking left to continue." :: p.2)
      else (m, [])
  else (m, [])

/-- Run `update_eye_exercise` over a list of timed gaze samples. -/
def run_exercise (m : Monitor) : List (ℚ × String) → Monitor
  | [] => m
  | (t, g) :: rest => run_exercise (update_eye_exercise m t g).1 rest

/-! ## Simple per-tick checks -/

/-- `HealthMonitor.should_check_auto_mode`. -/
def should_check_auto_mode (m : Monitor) (now : ℚ) : Bool :=
  if ¬ m.auto_mode then false
  else now - m.auto_mode_last_check ≥ m.auto_mode_interval

/-- `HealthMonitor.check_screen_time`. -/
def check_screen_time (m : Monitor) (now : ℚ) : Bool :=
  now - m.last_break_time > m.screen_time_break

/-- `HealthMonitor.check_blink_rate`: fewer recent blinks than
`(BLINK_WINDOW / 60) * 8 = 4/3` in the trailing window. -/
def check_blink_rate (m : Monitor) (now : ℚ) : Bool :=
  ((m.blink_timestamps.filter (fun t => t ≥ now - BLINK_WINDOW)).length : ℚ) <
    (BLINK_WINDOW / 60) * 8

/-- Append to the blink `deque(maxlen=100)`: the oldest entry is dropped
once the deque is full. -/
def pushBlink (l : List ℚ) (t : ℚ) : List ℚ :=
  let l1 := l ++ [t]
  if l1.length > 100 then l1.drop (l1.length - 100) else l1

/-! ## System health check (`check_system_health`) -/

/-- A Python value stored in the `system_info` dict. -/
inductive SysVal where
  | num (q : ℚ)
  | str (s : String)
  | bool (b : Bool)
  deriving Repr, DecidableEq

/-- What the `psutil` sensors report (external environment of
`check_system_health`): the optional battery reading and the temperature
sensor map (each sensor name with its list of entry currents). -/
structure SysEnv where
  battery : Option (ℚ × Bool × ℚ)
  temps : List (String × List ℚ)
  deriving Repr, DecidableEq

/-- `HealthMonitor.check_system_health`: build the `system_info` dict.
Key order follows Python dict insertion order; re-assigning
`system_info['available'] = True` keeps its original first position. -/
def check_system_health (m : Monitor) (env : SysEnv) : List (String × SysVal) :=
  let d0 : List (String × SysVal) := [("available", SysVal.bool false)]
  if ¬ m.psutil_available then
    dictSet d0 "message" (SysVal.str "psutil not available")
  else
    let d1 := match env.battery with
      | none => d0
      | some (percent, plugged, secsleft) =>
          dictSet (dictSet (dictSet d0 "battery_percent" (SysVal.num percent))
              "power_plugged" (SysVal.bool plugged))
            "battery_seconds_left" (SysVal.num secsleft)
    let d2 := if env.temps ≠ [] then
        env.temps.foldl (fun d p => match p.2 with
          | [] => d
          | c :: _ => dictSet d ("temp_" ++ p.1) (SysVal.num c)) d1
      else
        dictSet d1 "temperature" (SysVal.str "unavailable")
    dictSet d2 "available" (SysVal.bool true)

/-- Substring occurrence on character lists (structurally recursive). -/
def hasSubstr (sub : List Char) : List Char → Bool
  | [] => sub.isEmpty
  | c :: t => sub.isPrefixOf (c :: t) || hasSubstr sub t

/-- Whether the substring `"temp"` occurs in `key` (Python `'temp' in key`). -/
def containsTemp (key : String) : Bool :=
  hasSubstr "temp".data key.data

/-- Python `value > 70` on a dict value: numbers and booleans compare
(`True` is 1), a string raises `TypeError`. -/
def pyGT70 : SysVal → Except String Bool
  | SysVal.num q => Except.ok (q > 70)
  | SysVal.bool b => Except.ok ((if b then (1 : ℚ) else 0) > 70)
  | SysVal.str _ => Except.error "TypeError"

/-- The `for key, temp in system_info.items()` loop of the system health
block in `process_frame`: alert on each hot temperature, abort with the
exception when a value does not compare with `70`. -/
def temp_alert_loop (m : Monitor) (now : ℚ) :
    List (String × SysVal) → Monitor × List Event × Option String
  | [] => (m, [], none)
  | (key, v) :: rest =>
    if containsTemp key then
      match pyGT70 v with
      | Except.error e => (m, [], some e)
      | Except.ok hot =>
        if hot then
          if should_notify m now "system_health" then
            let p := send_notification m now "System Running Hot"
                "High temperature detected. Consider taking a break."
                "system_health" true
            let r := temp_alert_loop p.1 now rest
            (r.1, p.2 ++ r.2.1, r.2.2)
          else temp_alert_loop m now rest
        else temp_alert_loop m now rest
    else temp_alert_loop m now rest

/-! ## Frame processing (`process_frame`) -/

/-- The posture verdict computed by `analyze_posture` (pure geometry on
pose landmarks, outside the claims). -/
structure PostureData where
  is_tilted : Bool
  is_slouching : Bool
  deriving Repr, DecidableEq

/-- The face-derived per-frame signals, as produced by the metric
extractors (`detect_gaze_direction`, `check_proximity`,
`eye_aspect_ratio`) when a face is detected. -/
structure FaceSignals where
  gaze : String
  proximity_alert : Bool
  ear : ℚ
  deriving Repr, DecidableEq

/-- All vision-derived inputs of one tick: `none` components model frames
where no face / no pose landmarks were found (or posture analysis
returned `None`). -/
structure FrameEnv where
  face : Option FaceSignals
  posture : Option PostureData
  deriving Repr, DecidableEq

/-- `self.last_detection = gaze_direction` in the face section. -/
def frame_gaze_step (m : Monitor) (f : FaceSignals) : Monitor :=
  { m with last_detection := f.gaze }

/-- `if self.eye_exercise_active: self.update_eye_exercise(...)`. -/
def frame_exercise_step (m : Monitor) (now : ℚ) (f : FaceSignals) :
    Monitor × List Event :=
  if m.eye_exercise_active then update_eye_exercise m now f.gaze else (m, [])

/-- The proximity alert of the face section. -/
def frame_proximity_step (m : Monitor) (now : ℚ) (f : FaceSignals) :
    Monitor × List Event :=
  if f.proximity_alert ∧ should_notify m now "proximity" ∧
      ¬ m.eye_exercise_active then
    send_notification m now "Move Back Slightly"
      "Too close to the screen. Maintain 20-30cm distance." "proximity" true
  else (m, [])

/-- Blink bookkeeping: record a blink instant when EAR is low. -/
def frame_blink_step (m : Monitor) (now : ℚ) (f : FaceSignals) : Monitor :=
  if f.ear < EAR_THRESHOLD then
    { m with blink_timestamps := pushBlink m.blink_timestamps now }
  else m

/-- The blink-rate alert of the face section (`lbr` is the stored
`results['low_blink_rate']`). -/
def frame_blink_alert_step (m : Monitor) (now : ℚ) (lbr : Bool) :
    Monitor × List Event :=
  if lbr ∧ should_notify m now "blink_rate" ∧ ¬ m.eye_exercise_active then
    send_notification m now "Rest Your Eyes"
      "Your blink rate is low. Remember to blink regularly." "blink_rate" true
  else (m, [])

/-- The face-section auto-mode trigger: start the exercise when issues are
detected, only after the interval. -/
def frame_auto_trigger_face (m : Monitor) (now : ℚ) (f : FaceSignals)
    (lbr : Bool) : Monitor × List Event :=
  if m.auto_mode ∧ ¬ m.eye_exercise_active ∧ should_check_auto_mode m now then
    if f.proximity_alert ∨ lbr ∨ check_screen_time m now then
      let q := start_eye_exercise m now
      ({ q.1 with last_break_time := now }, q.2)
    else (m, [])
  else (m, [])

/-- The face-detection section of `process_frame` (gaze, exercise update,
proximity alert, blink bookkeeping, blink-rate alert, auto-mode exercise
trigger), in source statement order. -/
def process_frame_face (m : Monitor) (now : ℚ) (f : FaceSignals) :
    Monitor × List Event :=
  let p1 := frame_exercise_step (frame_gaze_step m f) now f
  let p2 := frame_proximity_step p1.1 now f
  let mB := frame_blink_step p2.1 now f
  let lbr := check_blink_rate mB now
  let p3 := frame_blink_alert_step mB now lbr
  let p4 := frame_auto_trigger_face p3.1 now f lbr
  (p4.1, p1.2 ++ p2.2 ++ p3.2 ++ p4.2)

/-- The head-tilt alert of the pose section. -/
def pose_tilt_step (m : Monitor) (now : ℚ) (pd : PostureData) :
    Monitor × List Event :=
  if pd.is_tilted ∧ should_notify m now "posture" then
    send_notification m now "Adjust Your Posture"
      "Your head is tilted. Keep your head straight and aligned." "posture" true
  else (m, [])

/-- The slouching alert of the pose section. -/
def pose_slouch_step (m : Monitor) (now : ℚ) (pd : PostureData) :
    Monitor × List Event :=
  if pd.is_slouching ∧ should_notify m now "posture" then
    send_notification m now "Sit Up Straight"
      "Straighten your back and relax your shoulders." "posture" true
  else (m, [])

/-- The pose-section auto-mode trigger. -/
def pose_auto_trigger (m : Monitor) (now : ℚ) (pd : PostureData) :
    Monitor × List Event :=
  if m.auto_mode ∧ ¬ m.eye_exercise_active ∧ should_check_auto_mode m now then
    if pd.is_tilted ∨ pd.is_slouching then
      let q := start_eye_exercise m now
      ({ q.1 with last_break_time := now }, q.2)
    else (m, [])
  else (m, [])

/-- The pose-detection section of `process_frame` (posture alerts and the
posture-driven auto-mode exercise trigger). -/
def process_frame_pose (m : Monitor) (now : ℚ) (pd : PostureData) :
    Monitor × List Event :=
  if ¬ m.eye_exercise_active then
    let p1 := pose_tilt_step m now pd
    let p2 := pose_slouch_step p1.1 now pd
    let p3 := pose_auto_trigger p2.1 now pd
    (p3.1, p1.2 ++ p2.2 ++ p3.2)
  else (m, [])

/-- The screen-time section of `process_frame`: a standalone cooldown-gated
notification, sent only in MANUAL mode. -/
def screen_time_step (m : Monitor) (now : ℚ) : Monitor × List Event :=
  if check_screen_time m now ∧ should_notify m now "screen_time" ∧
      ¬ m.eye_exercise_active then
    if ¬ m.auto_mode then
      send_notification m now "Time for a Break!"
        "20 minutes of screen use. Consider taking a break." "screen_time" true
    else (m, [])
  else (m, [])

/-- The decimated system-health section of `process_frame`; NOT inside a
try block, so the temperature loop may raise. -/
def system_health_step (m : Monitor) (now : ℚ) (sys : SysEnv) :
    Monitor × List Event × Option String :=
  if (Rat.floor now) % 10 = 0 ∧ ¬ m.eye_exercise_active then
    if dictGet (check_system_health m sys) "available" =
        some (SysVal.bool true) then
      temp_alert_loop m now (check_system_health m sys)
    else (m, [], none)
  else (m, [], none)

/-- `HealthMonitor.process_frame` for one tick at instant `now`.  The
result carries the monitor state, the emitted events, and the uncaught
exception if the (un-guarded) system health block raised. -/
def process_frame (m : Monitor) (now : ℚ) (env : FrameEnv) (sys : SysEnv) :
    Monitor × List Event × Option String :=
  if ¬ m.mediapipe_available then (m, [], none)
  else
    -- Auto-mode logic: top-of-tick periodic check bookkeeping
    let m1 := if m.auto_mode ∧ should_check_auto_mode m now then
        { m with auto_mode_last_check := now }
      else m
    -- Face detection and analysis (exceptions inside are caught)
    let pF := match env.face with
      | none => (m1, ([] : List Event))
      | some f => process_frame_face m1 now f
    -- Pose detection and posture analysis (exceptions inside are caught)
    let pP := match env.posture with
      | none => (pF.1, ([] : List Event))
      | some pd => process_frame_pose pF.1 now pd
    -- Screen time check
    let pS := screen_time_step pP.1 now
    -- System health check (run less frequently)
    let pH := system_health_step pS.1 now sys
    (pH.1, pF.2 ++ pP.2 ++ pS.2 ++ pH.2.1, pH.2.2)

/-- Run `process_frame` over a list of ticks: each tick feeds the next;
the events of all ticks are collected. -/
def run_frames (m : Monitor) :
    List (ℚ × FrameEnv × SysEnv) → Monitor × List Event
  | [] => (m, [])
  | (t, env, sys) :: rest =>
    let p := process_frame m t env sys
    let r := run_frames p.1 rest
    (r.1, p.2.1 ++ r.2)

/-! ## GUI background-mode switching (`gui/main_window.py`) -/

/-- The `SafeWarnerGUI` fields involved in background-mode entry. -/
structure GuiState where
  auto_mode_active : Bool
  is_camera_active : Bool
  background_mode : Bool
  monitor : Monitor
  deriving Repr, DecidableEq

/-- `SafeWarnerGUI.has_active_alerts`: the source always returns `False`. -/
def has_active_alerts (_g : GuiState) : Bool := false

/-- `SafeWarnerGUI.check_user_distance`: simplified implementation in the
source — OK once the session has run longer than 3 seconds. -/
def check_user_distance (g : GuiState) (now : ℚ) : Bool :=
  now - g.monitor.session_start > 3

/-- `SafeWarnerGUI.stop_camera` (the fields modelled here). -/
def stop_camera (g : GuiState) : GuiState :=
  { g with is_camera_active := false }

/-- `SafeWarnerGUI.switch_to_background_mode`: enter background operation
(stop capture, hide the UI) unless already in background. -/
def switch_to_background_mode (g : GuiState) : GuiState :=
  if g.background_mode then g
  else stop_camera { g with background_mode := true }

/-- `SafeWarnerGUI.check_background_operation`: the periodic (30 s timer)
background check. -/
def check_background_operation (g : GuiState) (now : ℚ) : GuiState :=
  if ¬ g.auto_mode_active ∨ ¬ g.is_camera_active then g
  else if g.monitor.auto_mode ∧ ¬ g.monitor.eye_exercise_active then
    if check_user_distance g now ∧ ¬ has_active_alerts g then
      switch_to_background_mode g
    else g
  else g

/-- `SafeWarnerGUI.try_background_after_start`: the one-shot early
background attempt scheduled 3 s after auto-mode startup. -/
def try_background_after_start (g : GuiState) (now : ℚ) : GuiState :=
  if ¬ g.auto_mode_active ∨ ¬ g.is_camera_active then g
  else if check_user_distance g now ∧ ¬ has_active_alerts g then
    switch_to_background_mode g
  else g

/-! ## Claim theorems -/

/-- C1: in AUTO mode, on a tick where the poll interval has elapsed and no
exercise is active, the claim says the tick sets `lastAutoCheckInstant = now`
and, an alert signal (here: proximity) being true, invokes `StartExercise()`.
The code updates the check instant at the top of the tick and then re-checks
`should_check_auto_mode()` in the trigger guard, which is now false, so the
exercise is NOT started: at this failing input the tick ends with the check
instant updated, no `exerciseStarted` event, and the exercise still inactive,
diverging from the claim. -/
theorem auto_poll_never_starts_exercise :
    should_check_auto_mode (initMonitor true 0 true true) 31 = true ∧
    (initMonitor true 0 true true).eye_exercise_active = false ∧
    (process_frame (initMonitor true 0 true true) 31
        (⟨some ⟨"center", true, 1⟩, none⟩ : FrameEnv)
        (⟨none, []⟩ : SysEnv)).1.auto_mode_last_check = 31 ∧
    (process_frame (initMonitor true 0 true true) 31
        (⟨some ⟨"center", true, 1⟩, none⟩ : FrameEnv)
        (⟨none, []⟩ : SysEnv)).1.eye_exercise_active = false ∧
    Event.exerciseStarted ∉
      (process_frame (initMonitor true 0 true true) 31
        (⟨some ⟨"center", true, 1⟩, none⟩ : FrameEnv)
        (⟨none, []⟩ : SysEnv)).2.1 := by
  norm_num +decide [process_frame, process_frame_face, process_frame_pose,
    frame_gaze_step, frame_exercise_step, frame_proximity_step,
    frame_blink_step, frame_blink_alert_step, frame_auto_trigger_face,
    pose_tilt_step, pose_slouch_step, pose_auto_trigger, screen_time_step,
    system_health_step, update_eye_exercise, should_check_auto_mode,
    should_notify, send_notification, check_blink_rate, check_screen_time,
    pushBlink, start_eye_exercise, dictGet, dictGetD, dictSet, initMonitor,
    check_system_health, containsTemp, hasSubstr, pyGT70, temp_alert_loop,
    EAR_THRESHOLD, BLINK_WINDOW, SCREEN_TIME_BREAK, NOTIFICATION_COOLDOWN,
    AUTO_MODE_INTERVAL, Rat.floor]

/-- C2: the claim says a tick on which the decimated system-health check
runs completes without raising, for every value of the system-health
information, including when no temperature sensors are available.  With
`psutil` available and no sensors, `check_system_health` stores the string
`'unavailable'` under the key `'temperature'`, the consumer loop matches
that key with `'temp' in key` and evaluates `'unavailable' > 70`, and the
tick raises an uncaught `TypeError`. -/
theorem system_health_tick_raises_on_missing_sensors :
    check_system_health (initMonitor false 0 true true) (⟨none, []⟩ : SysEnv) =
      [("available", SysVal.bool true), ("temperature", SysVal.str "unavailable")] ∧
    (process_frame (initMonitor false 0 true true) 20
        (⟨none, none⟩ : FrameEnv) (⟨none, []⟩ : SysEnv)).2.2 =
      some "TypeError" := by
  norm_num +decide [process_frame, process_frame_face, process_frame_pose,
    frame_gaze_step, frame_exercise_step, frame_proximity_step,
    frame_blink_step, frame_blink_alert_step, frame_auto_trigger_face,
    pose_tilt_step, pose_slouch_step, pose_auto_trigger, screen_time_step,
    system_health_step, update_eye_exercise, should_check_auto_mode,
    should_notify, send_notification, check_blink_rate, check_screen_time,
    pushBlink, start_eye_exercise, dictGet, dictGetD, dictSet, initMonitor,
    check_system_health, containsTemp, hasSubstr, pyGT70, temp_alert_loop,
    EAR_THRESHOLD, BLINK_WINDOW, SCREEN_TIME_BREAK, NOTIFICATION_COOLDOWN,
    AUTO_MODE_INTERVAL, Rat.floor]

/-- C4: the claim says background entry never occurs while the exercise is
active, on every path including the post-startup early attempt.  The
periodic check (`check_background_operation`) does guard on
`eye_exercise_active`, but `try_background_after_start` does not: run 3 s
after auto-mode startup while an eye exercise is active (camera on,
session older than 3 s), it switches to background mode. -/
theorem early_background_entry_during_exercise :
    ((⟨true, true, false,
        { initMonitor true 0 true true with eye_exercise_active := true }⟩ :
      GuiState).monitor.eye_exercise_active = true) ∧
    (try_background_after_start
        (⟨true, true, false,
          { initMonitor true 0 true true with eye_exercise_active := true }⟩ :
         GuiState) 10).background_mode = true ∧
    (try_background_after_start
        (⟨true, true, false,
          { initMonitor true 0 true true with eye_exercise_active := true }⟩ :
         GuiState) 10).monitor.eye_exercise_active = true ∧
    (check_background_operation
        (⟨true, true, false,
          { initMonitor true 0 true true with eye_exercise_active := true }⟩ :
         GuiState) 10).background_mode = false := by
  norm_num +decide [try_background_after_start, check_background_operation,
    switch_to_background_mode, stop_camera, check_user_distance,
    has_active_alerts, initMonitor]

/-- C3 counterexample: `start_eye_exercise` called while an exercise is
already active (here: LEFT phase, 5 s remaining) is neither a no-op nor an
error — the Python body has no raise path and unconditionally resets the
state, so the resulting monitor differs from the input. -/
theorem start_while_active_is_not_noop :
    (start_eye_exercise
        { initMonitor false 0 true true with
            eye_exercise_active := true, current_phase := "left",
            time_left := 5, countdown_active := true } 50).1 ≠
      { initMonitor false 0 true true with
          eye_exercise_active := true, current_phase := "left",
          time_left := 5, countdown_active := true } := by
  intro h
  have h5 := congrArg Monitor.time_left h
  norm_num +decide [start_eye_exercise, send_notification, should_notify,
    dictGet, dictGetD, dictSet, initMonitor, NOTIFICATION_COOLDOWN] at h5

/-- C3 amended: calling `start_eye_exercise` while an exercise is already
active silently restarts it — phase back to RIGHT, 15 s remaining,
countdown stopped, start instants set to `now`, done cleared — and emits
the start guidance, leaving the exercise ledger untouched. -/
theorem start_while_active_restarts (m : Monitor) (now : ℚ)
    (_h : m.eye_exercise_active = true) :
    (start_eye_exercise m now).1.eye_exercise_active = true ∧
    (start_eye_exercise m now).1.current_phase = "right" ∧
    (start_eye_exercise m now).1.time_left = 15 ∧
    (start_eye_exercise m now).1.paused_time_left = 15 ∧
    (start_eye_exercise m now).1.countdown_active = false ∧
    (start_eye_exercise m now).1.exercise_done = false ∧
    (start_eye_exercise m now).1.eye_exercise_start_time = now ∧
    (start_eye_exercise m now).1.phase_start_time = now ∧
    (start_eye_exercise m now).1.eye_exercises = m.eye_exercises ∧
    Event.exerciseStarted ∈ (start_eye_exercise m now).2 := by
  simp [start_eye_exercise, send_notification, should_notify]

/-- Witness for `start_while_active_restarts` at a concrete active state. -/
theorem start_while_active_restarts_witness :
    ({ initMonitor false 0 true true with
        eye_exercise_active := true } : Monitor).eye_exercise_active = true ∧
    (start_eye_exercise
        { initMonitor false 0 true true with eye_exercise_active := true }
        7).1.current_phase = "right" := by
  exact ⟨rfl, (start_while_active_restarts
    { initMonitor false 0 true true with eye_exercise_active := true } 7
    rfl).2.1⟩

/-- C5: for a pair of `send_notification` calls of the same kind where the
first is accepted and the second comes strictly less than the 30 s
cooldown later, the first call makes exactly one external notifier call
and appends exactly one alert record (and bumps the counter), and — for
every kind other than `eye_exercise` — the second call changes no state
and makes no external call; for kind `eye_exercise` the second call
delivers and records as well. -/
theorem cooldown_gates_second_call (m : Monitor) (now1 now2 : ℚ)
    (t1 msg1 t2 msg2 kind : String) (b1 b2 : Bool)
    (hacc : should_notify m now1 kind = true)
    (hcd : m.notification_cooldown = 30)
    (hgap : now2 - now1 < 30) :
    (send_notification m now1 t1 msg1 kind b1).2 =
      [Event.notify t1 msg1 kind] ∧
    (send_notification m now1 t1 msg1 kind b1).1.alerts =
      m.alerts ++ [⟨now1, kind, t1, msg1⟩] ∧
    dictGetD (send_notification m now1 t1 msg1 kind b1).1.alert_stats kind 0 =
      dictGetD m.alert_stats kind 0 + 1 ∧
    (kind ≠ "eye_exercise" →
      send_notification (send_notification m now1 t1 msg1 kind b1).1
          now2 t2 msg2 kind b2 =
        ((send_notification m now1 t1 msg1 kind b1).1, [])) ∧
    (kind = "eye_exercise" →
      (send_notification (send_notification m now1 t1 msg1 kind b1).1
          now2 t2 msg2 kind b2).2 = [Event.notify t2 msg2 kind] ∧
      (send_notification (send_notification m now1 t1 msg1 kind b1).1
          now2 t2 msg2 kind b2).1.alerts =
        (send_notification m now1 t1 msg1 kind b1).1.alerts ++
          [⟨now2, kind, t2, msg2⟩]) := by
  have hfirst : send_notification m now1 t1 msg1 kind b1 =
      ({ m with
          last_notification := dictSet m.last_notification kind now1
          alert_stats := dictSet m.alert_stats kind
            (dictGetD m.alert_stats kind 0 + 1)
          alerts := m.alerts ++ [⟨now1, kind, t1, msg1⟩] },
       [Event.notify t1 msg1 kind]) := by
    simp [send_notification, hacc]
  have hgate : should_notify (send_notification m now1 t1 msg1 kind b1).1
      now2 kind = false := by
    simp [hfirst, should_notify, hcd, dictGetD_dictSet_self]
    linarith
  refine ⟨by simp [hfirst], by simp [hfirst],
    by simp [hfirst, dictGetD_dictSet_self], ?_, ?_⟩
  · intro hk
    generalize hM : (send_notification m now1 t1 msg1 kind b1).1 = M1 at hgate ⊢
    simp [send_notification, hgate, hk]
  · intro hk
    generalize hM : (send_notification m now1 t1 msg1 kind b1).1 = M1 at hgate ⊢
    simp [send_notification, hgate, hk]

/-- Witness for `cooldown_gates_second_call` at a concrete input. -/
theorem cooldown_gates_second_call_witness :
    should_notify (initMonitor false 0 true true) 100 "proximity" = true ∧
    (initMonitor false 0 true true).notification_cooldown = 30 ∧
    ((105 : ℚ) - 100 < 30) ∧
    send_notification
        (send_notification (initMonitor false 0 true true) 100 "a" "b"
          "proximity" true).1 105 "c" "d" "proximity" false =
      ((send_notification (initMonitor false 0 true true) 100 "a" "b"
          "proximity" true).1, []) := by
  have h1 : should_notify (initMonitor false 0 true true) 100 "proximity" =
      true := by
    norm_num +decide [should_notify, dictGetD, dictGet, initMonitor,
      NOTIFICATION_COOLDOWN]
  have h2 : (initMonitor false 0 true true).notification_cooldown = 30 := rfl
  have h3 : (105 : ℚ) - 100 < 30 := by norm_num
  exact ⟨h1, h2, h3,
    (cooldown_gates_second_call (initMonitor false 0 true true) 100 105
      "a" "b" "c" "d" "proximity" true false h1 h2 h3).2.2.2.1 (by decide)⟩

/-- C8: during an active exercise phase, the pause re-prompt fires only on
the running-to-paused edge: a wrong-gaze tick while the countdown is
already stopped changes no state and emits nothing, and a wrong-gaze tick
while the countdown runs stops it, saves the remaining time, and emits
exactly one guidance notification. -/
theorem pause_reprompt_once_per_edge (m : Monitor) (now : ℚ) (g : String)
    (hact : m.eye_exercise_active = true) (hdone : m.exercise_done = false)
    (hphase : m.current_phase = "right" ∨ m.current_phase = "left")
    (hwrong : g ≠ m.current_phase) :
    (m.countdown_active = false → update_eye_exercise m now g = (m, [])) ∧
    (m.countdown_active = true →
      (update_eye_exercise m now g).1.countdown_active = false ∧
      (update_eye_exercise m now g).1.paused_time_left = m.time_left ∧
      ∃ t s msg, (update_eye_exercise m now g).2 =
        [Event.speak s, Event.notify t msg "eye_exercise"]) := by
  rcases hphase with hp | hp
  · rw [hp] at hwrong
    constructor
    · intro hcd
      simp [update_eye_exercise, hact, hdone, hp, hwrong, hcd]
    · intro hcd
      simp [update_eye_exercise, send_notification, hact, hdone, hp, hwrong,
        hcd]
  · rw [hp] at hwrong
    have hnr : m.current_phase = "right" → False := by
      rw [hp]; intro h; exact absurd h (by decide)
    constructor
    · intro hcd
      simp [update_eye_exercise, hact, hdone, hp, hwrong, hcd, hnr]
    · intro hcd
      simp [update_eye_exercise, send_notification, hact, hdone, hp, hwrong,
        hcd, hnr]

/-- Witness for `pause_reprompt_once_per_edge`: a paused RIGHT-phase state
takes a `center` tick with no state change and no events. -/
theorem pause_reprompt_once_per_edge_witness :
    update_eye_exercise
        { initMonitor false 0 true true with
            eye_exercise_active := true, countdown_active := false } 3
        "center" =
      ({ initMonitor false 0 true true with
          eye_exercise_active := true, countdown_active := false }, []) := by
  exact (pause_reprompt_once_per_edge
    { initMonitor false 0 true true with
        eye_exercise_active := true, countdown_active := false } 3 "center"
    rfl rfl (Or.inl rfl) (by decide)).1 rfl

/-- C10: once a notification request is accepted (cooldown elapsed or kind
`eye_exercise`), the monitor records it — `last_notification[kind]` set to
`now`, counter incremented, alert appended — and the resulting state and
events are the same whatever Bool `fast_notify` returned (the source
assigns the result to an unused local). -/
theorem accepted_notification_ignores_delivery (m : Monitor) (now : ℚ)
    (title message kind : String) (b1 b2 : Bool)
    (hacc : should_notify m now kind = true ∨ kind = "eye_exercise") :
    send_notification m now title message kind b1 =
      send_notification m now title message kind b2 ∧
    (send_notification m now title message kind b1).1.last_notification =
      dictSet m.last_notification kind now ∧
    (send_notification m now title message kind b1).1.alert_stats =
      dictSet m.alert_stats kind (dictGetD m.alert_stats kind 0 + 1) ∧
    (send_notification m now title message kind b1).1.alerts =
      m.alerts ++ [⟨now, kind, title, message⟩] ∧
    (send_notification m now title message kind b1).2 =
      [Event.notify title message kind] := by
  rcases hacc with h | h <;> simp [send_notification, h]

/-- Witness for `accepted_notification_ignores_delivery`: an accepted
request whose `fast_notify` returned `false` still records the alert. -/
theorem accepted_notification_ignores_delivery_witness :
    (should_notify (initMonitor false 0 true true) 50 "posture" = true ∨
      ("posture" : String) = "eye_exercise") ∧
    (send_notification (initMonitor false 0 true true) 50 "t" "m" "posture"
        false).1.alerts =
      (initMonitor false 0 true true).alerts ++ [⟨50, "posture", "t", "m"⟩] := by
  have h : should_notify (initMonitor false 0 true true) 50 "posture" = true := by
    norm_num +decide [should_notify, dictGetD, dictGet, initMonitor,
      NOTIFICATION_COOLDOWN]
  exact ⟨Or.inl h,
    (accepted_notification_ignores_delivery (initMonitor false 0 true true)
      50 "t" "m" "posture" false true (Or.inl h)).2.2.2.1⟩

/-! ## Exercise-trace machinery

Reachable shapes of the exercise state during a run, used to settle the
trace claims about `update_eye_exercise`. -/

/-- The countdown of phase `ph` is running since instant `p0` with `p`
seconds budgeted and `tl` currently displayed; the exercise started at
`t0` and the exercise ledger is `E`. -/
def Counting (ph : String) (p0 p tl t0 : ℚ) (E : List ExerciseRecord)
    (m : Monitor) : Prop :=
  m.eye_exercise_active = true ∧ m.exercise_done = false ∧
  m.current_phase = ph ∧ m.countdown_active = true ∧
  m.paused_time_left = p ∧ m.phase_start_time = p0 ∧ m.time_left = tl ∧
  m.eye_exercise_start_time = t0 ∧ m.eye_exercises = E

/-- Phase `ph` is waiting (countdown stopped) with `p` seconds budgeted;
in every reachable waiting state `time_left` equals the budget. -/
def Waiting (ph : String) (p t0 : ℚ) (E : List ExerciseRecord)
    (m : Monitor) : Prop :=
  m.eye_exercise_active = true ∧ m.exercise_done = false ∧
  m.current_phase = ph ∧ m.countdown_active = false ∧
  m.paused_time_left = p ∧ m.time_left = p ∧
  m.eye_exercise_start_time = t0 ∧ m.eye_exercises = E

/-- `start_eye_exercise` leaves the machine waiting in the RIGHT phase
with the full 15 s budget and the ledger untouched. -/
theorem start_gives_waiting (m : Monitor) (t0 : ℚ) :
    Waiting "right" 15 t0 m.eye_exercises (start_eye_exercise m t0).1 := by
  simp [Waiting, start_eye_exercise, send_notification]

/-- A correct-gaze tick in a waiting RIGHT phase starts the countdown. -/
theorem tick_right_start (m : Monitor) (now p t0 : ℚ)
    (E : List ExerciseRecord) (h : Waiting "right" p t0 E m) (hp : 0 < p) :
    Counting "right" now p p t0 E (update_eye_exercise m now "right").1 := by
  obtain ⟨h1, h2, h3, h4, h5, h6, h7, h8⟩ := h
  have e1 : max (0:ℚ) (p - (now - now)) = p := by
    rw [sub_self, sub_zero]; exact max_eq_right hp.le
  simp [Counting, update_eye_exercise, h1, h2, h3, h4, h5, h6, h7, h8, e1,
    not_le.mpr hp, hp.le]

/-- A correct-gaze tick in a counting RIGHT phase, before the budget is
used up, keeps counting. -/
theorem tick_right_stay (m : Monitor) (now p0 p tl t0 : ℚ)
    (E : List ExerciseRecord) (h : Counting "right" p0 p tl t0 E m)
    (ht : now - p0 < p) :
    Counting "right" p0 p (p - (now - p0)) t0 E
      (update_eye_exercise m now "right").1 := by
  obtain ⟨h1, h2, h3, h4, h5, h6, h7, h8, h9⟩ := h
  have hpos : (0:ℚ) < p - (now - p0) := by linarith
  have e1 : max (0:ℚ) (p - (now - p0)) = p - (now - p0) :=
    max_eq_right hpos.le
  simp [Counting, update_eye_exercise, h1, h2, h3, h4, h5, h6, h7, h8, h9,
    e1, not_le.mpr hpos]

/-- A correct-gaze tick in a counting RIGHT phase with the budget used up
completes the phase: the machine moves to a fresh LEFT phase. -/
theorem tick_right_flip (m : Monitor) (now p0 p tl t0 : ℚ)
    (E : List ExerciseRecord) (h : Counting "right" p0 p tl t0 E m)
    (ht : p ≤ now - p0) :
    Waiting "left" 15 t0 E (update_eye_exercise m now "right").1 := by
  obtain ⟨h1, h2, h3, h4, h5, h6, h7, h8, h9⟩ := h
  have e1 : max (0:ℚ) (p - (now - p0)) = 0 := max_eq_left (by linarith)
  simp [Waiting, update_eye_exercise, send_notification, h1, h2, h3, h4, h5,
    h6, h7, h8, h9, e1]

/-- A wrong-gaze tick in a waiting phase changes nothing and emits
nothing. -/
theorem tick_wrong_waiting (m : Monitor) (now p t0 : ℚ) (g ph : String)
    (E : List ExerciseRecord) (h : Waiting ph p t0 E m)
    (hph : ph = "right" ∨ ph = "left") (hg : g ≠ ph) :
    update_eye_exercise m now g = (m, []) := by
  obtain ⟨h1, h2, h3, h4, h5, h6, h7, h8⟩ := h
  rcases hph with hp | hp <;> subst hp
  · simp [update_eye_exercise, h1, h2, h3, h4, hg]
  · have : m.current_phase = "right" → False := by rw [h3]; decide
    simp [update_eye_exercise, h1, h2, h3, h4, hg, this]

/-- A wrong-gaze tick in a counting RIGHT phase pauses the countdown,
saving the remaining time. -/
theorem tick_right_pause (m : Monitor) (now p0 p tl t0 : ℚ) (g : String)
    (E : List ExerciseRecord) (h : Counting "right" p0 p tl t0 E m)
    (hg : g ≠ "right") :
    Waiting "right" tl t0 E (update_eye_exercise m now g).1 := by
  obtain ⟨h1, h2, h3, h4, h5, h6, h7, h8, h9⟩ := h
  simp [Waiting, update_eye_exercise, send_notification, h1, h2, h3, h4, h5,
    h6, h7, h8, h9, hg]

/-- A correct-gaze tick in a waiting LEFT phase starts the countdown. -/
theorem tick_left_start (m : Monitor) (now p t0 : ℚ)
    (E : List ExerciseRecord) (h : Waiting "left" p t0 E m) (hp : 0 < p) :
    Counting "left" now p p t0 E (update_eye_exercise m now "left").1 := by
  obtain ⟨h1, h2, h3, h4, h5, h6, h7, h8⟩ := h
  have hnr : m.current_phase = "right" → False := by rw [h3]; decide
  have e1 : max (0:ℚ) (p - (now - now)) = p := by
    rw [sub_self, sub_zero]; exact max_eq_right hp.le
  simp [Counting, update_eye_exercise, h1, h2, h3, h4, h5, h6, h7, h8, e1,
    not_le.mpr hp, hp.le, hnr]

/-- A correct-gaze tick in a counting LEFT phase, before the budget is
used up, keeps counting. -/
theorem tick_left_stay (m : Monitor) (now p0 p tl t0 : ℚ)
    (E : List ExerciseRecord) (h : Counting "left" p0 p tl t0 E m)
    (ht : now - p0 < p) :
    Counting "left" p0 p (p - (now - p0)) t0 E
      (update_eye_exercise m now "left").1 := by
  obtain ⟨h1, h2, h3, h4, h5, h6, h7, h8, h9⟩ := h
  have hnr : m.current_phase = "right" → False := by rw [h3]; decide
  have hpos : (0:ℚ) < p - (now - p0) := by linarith
  have e1 : max (0:ℚ) (p - (now - p0)) = p - (now - p0) :=
    max_eq_right hpos.le
  simp [Counting, update_eye_exercise, h1, h2, h3, h4, h5, h6, h7, h8, h9,
    e1, not_le.mpr hpos, hnr]

/-- A correct-gaze tick in a counting LEFT phase with the budget used up
completes the exercise and appends the one success record, with duration
`now` minus the start instant. -/
theorem tick_left_complete (m : Monitor) (now p0 p tl t0 : ℚ)
    (E : List ExerciseRecord) (h : Counting "left" p0 p tl t0 E m)
    (ht : p ≤ now - p0) :
    (update_eye_exercise m now "left").1.eye_exercise_active = false ∧
    (update_eye_exercise m now "left").1.exercise_done = true ∧
    (update_eye_exercise m now "left").1.eye_exercises =
      E ++ [⟨now, now - t0, true⟩] := by
  obtain ⟨h1, h2, h3, h4, h5, h6, h7, h8, h9⟩ := h
  have hnr : m.current_phase = "right" → False := by rw [h3]; decide
  have e1 : max (0:ℚ) (p - (now - p0)) = 0 := max_eq_left (by linarith)
  by_cases hauto : m.auto_mode = true <;>
    simp [update_eye_exercise, send_notification, h1, h2, h3, h4, h5, h6,
      h7, h8, h9, e1, hnr, hauto]

/-- A tick on an inactive machine is a no-op. -/
theorem tick_inactive (m : Monitor) (now : ℚ) (g : String)
    (h : m.eye_exercise_active = false) :
    update_eye_exercise m now g = (m, []) := by
  simp [update_eye_exercise, h]

/-- Running a trace splits at list append. -/
theorem run_exercise_append (m : Monitor) (a b : List (ℚ × String)) :
    run_exercise m (a ++ b) = run_exercise (run_exercise m a) b := by
  induction a generalizing m with
  | nil => simp [run_exercise]
  | cons p t ih => cases p; simp [run_exercise, ih]

/-- Running a single tick is one state machine step. -/
theorem run_exercise_single (m : Monitor) (t : ℚ) (g : String) :
    run_exercise m [(t, g)] = (update_eye_exercise m t g).1 := rfl

/-- Unfolding one step of a run. -/
theorem run_exercise_cons (m : Monitor) (t : ℚ) (g : String)
    (rest : List (ℚ × String)) :
    run_exercise m ((t, g) :: rest) =
      run_exercise (update_eye_exercise m t g).1 rest := rfl

/-- A run over any trace leaves an inactive machine unchanged. -/
theorem run_inactive (m : Monitor) (ts : List (ℚ × String))
    (h : m.eye_exercise_active = false) : run_exercise m ts = m := by
  induction ts with
  | nil => rfl
  | cons p t ih =>
    cases p
    rw [run_exercise, tick_inactive m _ _ h]
    exact ih

/-- A run of wrong-gaze ticks leaves a waiting machine unchanged. -/
theorem run_wrong_waiting (ts : List ℚ) (m : Monitor) (p t0 : ℚ)
    (g ph : String) (E : List ExerciseRecord) (h : Waiting ph p t0 E m)
    (hph : ph = "right" ∨ ph = "left") (hg : g ≠ ph) :
    run_exercise m (ts.map (fun t => (t, g))) = m := by
  induction ts with
  | nil => rfl
  | cons t ts ih =>
    rw [List.map_cons, run_exercise, tick_wrong_waiting m t p t0 g ph E h hph hg]
    exact ih

/-- Feeding `right` ticks to a counting RIGHT phase until some tick lies
`p` seconds past the countdown start completes the phase: the machine
ends waiting in a fresh LEFT phase with the full budget. -/
theorem run_right_reaches_left (ts : List ℚ) (m : Monitor)
    (p0 p tl t0 : ℚ) (E : List ExerciseRecord)
    (h : Counting "right" p0 p tl t0 E m) (hex : ∃ t ∈ ts, p0 + p ≤ t) :
    Waiting "left" 15 t0 E
      (run_exercise m (ts.map (fun t => (t, "right")))) := by
  induction ts generalizing m tl with
  | nil => simp at hex
  | cons t ts ih =>
    rw [List.map_cons, run_exercise]
    by_cases hc : p0 + p ≤ t
    · have hflip := tick_right_flip m t p0 p tl t0 E h (by linarith)
      have hrun := run_wrong_waiting ts _ 15 t0 "right" "left" E hflip
        (Or.inr rfl) (by decide)
      rw [hrun]
      exact hflip
    · have hstay := tick_right_stay m t p0 p tl t0 E h (by linarith)
      rcases hex with ⟨w, hw, hwle⟩
      rcases List.mem_cons.mp hw with hwt | hwts
      · exact absurd (hwt ▸ hwle) hc
      · exact ih _ _ hstay ⟨w, hwts, hwle⟩

/-- Feeding `left` ticks to a counting LEFT phase until some tick lies
`p` seconds past the countdown start completes the exercise at the first
such tick `tc`, appending exactly one success record of duration
`tc - t0`. -/
theorem run_left_completes (ts : List ℚ) (m : Monitor)
    (p0 p tl t0 : ℚ) (E : List ExerciseRecord)
    (h : Counting "left" p0 p tl t0 E m) (hex : ∃ t ∈ ts, p0 + p ≤ t) :
    ∃ tc, tc ∈ ts ∧ p0 + p ≤ tc ∧
      (run_exercise m (ts.map (fun t => (t, "left")))).eye_exercise_active
        = false ∧
      (run_exercise m (ts.map (fun t => (t, "left")))).exercise_done = true ∧
      (run_exercise m (ts.map (fun t => (t, "left")))).eye_exercises =
        E ++ [⟨tc, tc - t0, true⟩] := by
  induction ts generalizing m tl with
  | nil => simp at hex
  | cons t ts ih =>
    rw [List.map_cons, run_exercise]
    by_cases hc : p0 + p ≤ t
    · have hdone := tick_left_complete m t p0 p tl t0 E h (by linarith)
      rw [run_inactive _ _ hdone.1]
      exact ⟨t, List.mem_cons_self t ts, hc, hdone⟩
    · have hstay := tick_left_stay m t p0 p tl t0 E h (by linarith)
      rcases hex with ⟨w, hw, hwle⟩
      rcases List.mem_cons.mp hw with hwt | hwts
      · exact absurd (hwt ▸ hwle) hc
      · rcases ih _ _ hstay ⟨w, hwts, hwle⟩ with ⟨tc, htc, hle, hcon⟩
        exact ⟨tc, List.mem_cons_of_mem t htc, hle, hcon⟩

/-- Feeding `right` ticks all bounded by `p0 + d` (with `d < p`) to a
counting RIGHT phase keeps it counting, with at least `p - d` seconds
displayed. -/
theorem run_right_bounded (ts : List ℚ) (m : Monitor)
    (p0 p tl t0 d : ℚ) (E : List ExerciseRecord)
    (h : Counting "right" p0 p tl t0 E m) (htl : p - d ≤ tl)
    (hts : ∀ t ∈ ts, t ≤ p0 + d) (hdp : d < p) :
    ∃ tl2, p - d ≤ tl2 ∧
      Counting "right" p0 p tl2 t0 E
        (run_exercise m (ts.map (fun t => (t, "right")))) := by
  induction ts generalizing m tl with
  | nil => exact ⟨tl, htl, h⟩
  | cons t ts ih =>
    rw [List.map_cons, run_exercise]
    have hbound := hts t (List.mem_cons_self t ts)
    have hstay := tick_right_stay m t p0 p tl t0 E h (by linarith)
    exact ih _ _ hstay (by linarith)
      (fun u hu => hts u (List.mem_cons_of_mem t hu))

/-- C6: from Idle, `StartExercise()` at `t0` followed by `right` ticks
from `r0` for at least 15 s drives the machine to `phase=LEFT`,
`remaining=15`, countdown not running; continuing with `left` ticks from
`l0` for at least 15 more seconds drives `done=true`, `active=false`, and
appends exactly one `ExerciseRecord` with `success=true` whose duration
is the completion instant minus `t0` (at least 30 s). -/
theorem full_exercise_trace (m : Monitor) (t0 r0 l0 : ℚ) (rs ls : List ℚ)
    (hr : ∃ t ∈ rs, r0 + 15 ≤ t) (hl : ∃ t ∈ ls, l0 + 15 ≤ t)
    (ht0 : t0 ≤ r0) (hrl : r0 + 15 ≤ l0) :
    (run_exercise (start_eye_exercise m t0).1
        ((r0 :: rs).map (fun t => (t, "right")))).current_phase = "left" ∧
    (run_exercise (start_eye_exercise m t0).1
        ((r0 :: rs).map (fun t => (t, "right")))).time_left = 15 ∧
    (run_exercise (start_eye_exercise m t0).1
        ((r0 :: rs).map (fun t => (t, "right")))).countdown_active = false ∧
    (run_exercise (start_eye_exercise m t0).1
        (((r0 :: rs).map (fun t => (t, "right"))) ++
         ((l0 :: ls).map (fun t => (t, "left"))))).exercise_done = true ∧
    (run_exercise (start_eye_exercise m t0).1
        (((r0 :: rs).map (fun t => (t, "right"))) ++
         ((l0 :: ls).map (fun t => (t, "left"))))).eye_exercise_active
      = false ∧
    ∃ tc, tc ∈ l0 :: ls ∧ l0 + 15 ≤ tc ∧ t0 + 30 ≤ tc ∧
      (run_exercise (start_eye_exercise m t0).1
          (((r0 :: rs).map (fun t => (t, "right"))) ++
           ((l0 :: ls).map (fun t => (t, "left"))))).eye_exercises =
        m.eye_exercises ++ [⟨tc, tc - t0, true⟩] := by
  have h0 := start_gives_waiting m t0
  have hc := tick_right_start (start_eye_exercise m t0).1 r0 15 t0
    m.eye_exercises h0 (by norm_num)
  have hmid := run_right_reaches_left rs _ r0 15 15 t0 m.eye_exercises hc hr
  have hmid_eq : run_exercise (start_eye_exercise m t0).1
      ((r0 :: rs).map (fun t => (t, "right"))) =
      run_exercise
        (update_eye_exercise (start_eye_exercise m t0).1 r0 "right").1
        (rs.map (fun t => (t, "right"))) := by
    rw [List.map_cons, run_exercise]
  rw [hmid_eq, run_exercise_append, hmid_eq]
  have hcl := tick_left_start _ l0 15 t0 m.eye_exercises hmid (by norm_num)
  have hfin_eq : run_exercise
      (run_exercise
        (update_eye_exercise (start_eye_exercise m t0).1 r0 "right").1
        (rs.map (fun t => (t, "right"))))
      ((l0 :: ls).map (fun t => (t, "left"))) =
      run_exercise
        (update_eye_exercise
          (run_exercise
            (update_eye_exercise (start_eye_exercise m t0).1 r0 "right").1
            (rs.map (fun t => (t, "right")))) l0 "left").1
        (ls.map (fun t => (t, "left"))) := by
    rw [List.map_cons, run_exercise]
  rw [hfin_eq]
  rcases run_left_completes ls _ l0 15 15 t0 m.eye_exercises hcl hl with
    ⟨tc, htc, hle, ha, hd, hex⟩
  exact ⟨hmid.2.2.1, hmid.2.2.2.2.2.1, hmid.2.2.2.1, hd, ha,
    tc, List.mem_cons_of_mem l0 htc, hle, by linarith, hex⟩

/-- Witness for `full_exercise_trace`: the concrete trace
`start@0, right@0, right@15, left@15, left@30` completes the exercise
with the single success record of duration 30. -/
theorem full_exercise_trace_witness :
    (∃ t ∈ [(15 : ℚ)], (0 : ℚ) + 15 ≤ t) ∧
    (run_exercise (start_eye_exercise (initMonitor false 0 true true) 0).1
        ((((0 : ℚ) :: [15]).map (fun t => (t, "right"))) ++
         (((15 : ℚ) :: [30]).map (fun t => (t, "left"))))).exercise_done
      = true := by
  have hr : ∃ t ∈ [(15 : ℚ)], (0 : ℚ) + 15 ≤ t := ⟨15, by simp, by norm_num⟩
  have hl : ∃ t ∈ [(30 : ℚ)], (15 : ℚ) + 15 ≤ t := ⟨30, by simp, by norm_num⟩
  exact ⟨hr, (full_exercise_trace (initMonitor false 0 true true) 0 0 15
    [15] [30] hr hl (by norm_num) (by norm_num)).2.2.2.1⟩

/-- C7: a `right, center, right` trace whose two right segments span less
than 15 cumulative seconds never completes the RIGHT phase, and the
remaining time immediately after resuming equals its value at the pause
instant, however long the paused interval lasted (the center tick times
are unconstrained). -/
theorem pause_resume_preserves_remaining (m : Monitor)
    (t0 r0 c0 r1 d1 d2 : ℚ) (rs cs rs1 : List ℚ)
    (hb1 : ∀ t ∈ rs, t ≤ r0 + d1) (hb2 : ∀ t ∈ rs1, t ≤ r1 + d2)
    (hd1 : 0 ≤ d1) (hd2 : 0 ≤ d2) (hsum : d1 + d2 < 15) :
    (run_exercise (start_eye_exercise m t0).1
        ((((r0 :: rs).map (fun t => (t, "right"))) ++
          ((c0 :: cs).map (fun t => (t, "center")))) ++
         [(r1, "right")])).time_left =
      (run_exercise (start_eye_exercise m t0).1
        (((r0 :: rs).map (fun t => (t, "right"))) ++
         ((c0 :: cs).map (fun t => (t, "center"))))).time_left ∧
    (run_exercise (start_eye_exercise m t0).1
        (((r0 :: rs).map (fun t => (t, "right"))) ++
         ((c0 :: cs).map (fun t => (t, "center"))))).countdown_active
      = false ∧
    (run_exercise (start_eye_exercise m t0).1
        ((((r0 :: rs).map (fun t => (t, "right"))) ++
          ((c0 :: cs).map (fun t => (t, "center")))) ++
         ((r1 :: rs1).map (fun t => (t, "right"))))).current_phase
      = "right" ∧
    (run_exercise (start_eye_exercise m t0).1
        ((((r0 :: rs).map (fun t => (t, "right"))) ++
          ((c0 :: cs).map (fun t => (t, "center")))) ++
         ((r1 :: rs1).map (fun t => (t, "right"))))).exercise_done
      = false ∧
    (run_exercise (start_eye_exercise m t0).1
        ((((r0 :: rs).map (fun t => (t, "right"))) ++
          ((c0 :: cs).map (fun t => (t, "center")))) ++
         ((r1 :: rs1).map (fun t => (t, "right"))))).eye_exercise_active
      = true := by
  have h0 := start_gives_waiting m t0
  have hc := tick_right_start (start_eye_exercise m t0).1 r0 15 t0
    m.eye_exercises h0 (by norm_num)
  rcases run_right_bounded rs _ r0 15 15 t0 d1 m.eye_exercises hc
      (by linarith) hb1 (by linarith) with ⟨tl1, htl1, hcnt1⟩
  have hpause := tick_right_pause _ c0 r0 15 tl1 t0 "center"
    m.eye_exercises hcnt1 (by decide)
  have hcs := run_wrong_waiting cs _ tl1 t0 "center" "right"
    m.eye_exercises hpause (Or.inl rfl) (by decide)
  have hPause_eq : run_exercise (start_eye_exercise m t0).1
      (((r0 :: rs).map (fun t => (t, "right"))) ++
       ((c0 :: cs).map (fun t => (t, "center")))) =
      (update_eye_exercise
        (run_exercise
          (update_eye_exercise (start_eye_exercise m t0).1 r0 "right").1
          (rs.map (fun t => (t, "right")))) c0 "center").1 := by
    rw [run_exercise_append, List.map_cons, run_exercise, List.map_cons,
      run_exercise, hcs]
  have hres := tick_right_start _ r1 tl1 t0 m.eye_exercises hpause
    (by linarith)
  rcases run_right_bounded rs1 _ r1 tl1 tl1 t0 d2 m.eye_exercises hres
      (by linarith) hb2 (by linarith) with ⟨tl2, htl2, hcnt2⟩
  have hResume_eq : run_exercise (start_eye_exercise m t0).1
      ((((r0 :: rs).map (fun t => (t, "right"))) ++
        ((c0 :: cs).map (fun t => (t, "center")))) ++ [(r1, "right")]) =
      (update_eye_exercise
        (run_exercise (start_eye_exercise m t0).1
          (((r0 :: rs).map (fun t => (t, "right"))) ++
           ((c0 :: cs).map (fun t => (t, "center"))))) r1 "right").1 := by
    rw [run_exercise_append, run_exercise_single]
  have hFin_eq : run_exercise (start_eye_exercise m t0).1
      ((((r0 :: rs).map (fun t => (t, "right"))) ++
        ((c0 :: cs).map (fun t => (t, "center")))) ++
       ((r1 :: rs1).map (fun t => (t, "right")))) =
      run_exercise
        (update_eye_exercise
          (run_exercise (start_eye_exercise m t0).1
            (((r0 :: rs).map (fun t => (t, "right"))) ++
             ((c0 :: cs).map (fun t => (t, "center"))))) r1 "right").1
        (rs1.map (fun t => (t, "right"))) := by
    rw [run_exercise_append]
    simp only [List.map_cons, run_exercise_cons]
  refine ⟨?_, ?_, ?_, ?_, ?_⟩
  · rw [hResume_eq, hPause_eq]
    rw [hres.2.2.2.2.2.2.1, hpause.2.2.2.2.2.1]
  · rw [hPause_eq]
    exact hpause.2.2.2.1
  · rw [hFin_eq, hPause_eq]
    exact hcnt2.2.2.1
  · rw [hFin_eq, hPause_eq]
    exact hcnt2.2.1
  · rw [hFin_eq, hPause_eq]
    exact hcnt2.1

/-- Witness for `pause_resume_preserves_remaining`: trace
`start@0, right@0, right@5, center@7, center@100, right@200, right@203`
(9 s cumulative right time) leaves the RIGHT phase incomplete and resumes
with the remaining time saved at the pause. -/
theorem pause_resume_preserves_remaining_witness :
    (∀ t ∈ [(5 : ℚ)], t ≤ (0 : ℚ) + 5) ∧
    (run_exercise (start_eye_exercise (initMonitor false 0 true true) 0).1
        (((((0 : ℚ) :: [5]).map (fun t => (t, "right"))) ++
          (((7 : ℚ) :: [100]).map (fun t => (t, "center")))) ++
         (((200 : ℚ) :: [203]).map (fun t => (t, "right"))))).exercise_done
      = false := by
  have hb1 : ∀ t ∈ [(5 : ℚ)], t ≤ (0 : ℚ) + 5 := by
    intro t ht; simp at ht; simp [ht]
  have hb2 : ∀ t ∈ [(203 : ℚ)], t ≤ (200 : ℚ) + 4 := by
    intro t ht; simp at ht; simp [ht]; norm_num
  exact ⟨hb1, (pause_resume_preserves_remaining
    (initMonitor false 0 true true) 0 0 7 200 5 4 [5] [100] [203]
    hb1 hb2 (by norm_num) (by norm_num) (by norm_num)).2.2.2.1⟩

/-! ## Manual-mode lemmas: the tick logic never starts an exercise
unless the auto-mode trigger fires -/

/-- `send_notification` does not change the mode flag. -/
theorem send_notification_auto (m : Monitor) (now : ℚ)
    (title message kind : String) (b : Bool) :
    (send_notification m now title message kind b).1.auto_mode =
      m.auto_mode := by
  unfold send_notification; split <;> rfl

/-- `send_notification` never reports an exercise start. -/
theorem send_notification_no_start (m : Monitor) (now : ℚ)
    (title message kind : String) (b : Bool) :
    Event.exerciseStarted ∉
      (send_notification m now title message kind b).2 := by
  unfold send_notification; split <;> simp

/-- `update_eye_exercise` does not change the mode flag. -/
theorem update_eye_exercise_auto (m : Monitor) (now : ℚ) (g : String) :
    (update_eye_exercise m now g).1.auto_mode = m.auto_mode := by
  simp only [update_eye_exercise]
  repeat' split
  all_goals simp [send_notification_auto]

/-- `update_eye_exercise` never reports an exercise start (it only ever
clears the active flag; `start_eye_exercise` is the sole entry point). -/
theorem update_eye_exercise_no_start (m : Monitor) (now : ℚ) (g : String) :
    Event.exerciseStarted ∉ (update_eye_exercise m now g).2 := by
  simp only [update_eye_exercise]
  repeat' split
  all_goals simp [send_notification_no_start]

/-- The system-health alert loop does not change the mode flag and never
reports an exercise start. -/
theorem temp_alert_loop_manual (l : List (String × SysVal)) (m : Monitor)
    (now : ℚ) :
    (temp_alert_loop m now l).1.auto_mode = m.auto_mode ∧
    Event.exerciseStarted ∉ (temp_alert_loop m now l).2.1 := by
  induction l generalizing m with
  | nil => simp [temp_alert_loop]
  | cons p rest ih =>
    obtain ⟨k, v⟩ := p
    simp only [temp_alert_loop]
    repeat' split
    all_goals simp_all [send_notification_auto, send_notification_no_start]

/-- `frame_exercise_step` preserves the mode flag. -/
theorem frame_exercise_step_auto (m : Monitor) (now : ℚ) (f : FaceSignals) :
    (frame_exercise_step m now f).1.auto_mode = m.auto_mode := by
  unfold frame_exercise_step
  split
  · exact update_eye_exercise_auto _ _ _
  · rfl

/-- `frame_exercise_step` never reports an exercise start. -/
theorem frame_exercise_step_no_start (m : Monitor) (now : ℚ)
    (f : FaceSignals) :
    Event.exerciseStarted ∉ (frame_exercise_step m now f).2 := by
  unfold frame_exercise_step
  split
  · exact update_eye_exercise_no_start _ _ _
  · simp

/-- `frame_proximity_step` preserves the mode flag. -/
theorem frame_proximity_step_auto (m : Monitor) (now : ℚ)
    (f : FaceSignals) :
    (frame_proximity_step m now f).1.auto_mode = m.auto_mode := by
  unfold frame_proximity_step
  split
  · exact send_notification_auto _ _ _ _ _ _
  · rfl

/-- `frame_proximity_step` never reports an exercise start. -/
theorem frame_proximity_step_no_start (m : Monitor) (now : ℚ)
    (f : FaceSignals) :
    Event.exerciseStarted ∉ (frame_proximity_step m now f).2 := by
  unfold frame_proximity_step
  split
  · exact send_notification_no_start _ _ _ _ _ _
  · simp

/-- `frame_blink_step` preserves the mode flag. -/
theorem frame_blink_step_auto (m : Monitor) (now : ℚ) (f : FaceSignals) :
    (frame_blink_step m now f).auto_mode = m.auto_mode := by
  unfold frame_blink_step; split <;> rfl

/-- `frame_blink_alert_step` preserves the mode flag. -/
theorem frame_blink_alert_step_auto (m : Monitor) (now : ℚ) (lbr : Bool) :
    (frame_blink_alert_step m now lbr).1.auto_mode = m.auto_mode := by
  unfold frame_blink_alert_step
  split
  · exact send_notification_auto _ _ _ _ _ _
  · rfl

/-- `frame_blink_alert_step` never reports an exercise start. -/
theorem frame_blink_alert_step_no_start (m : Monitor) (now : ℚ)
    (lbr : Bool) :
    Event.exerciseStarted ∉ (frame_blink_alert_step m now lbr).2 := by
  unfold frame_blink_alert_step
  split
  · exact send_notification_no_start _ _ _ _ _ _
  · simp

/-- In MANUAL mode the face-section auto trigger does nothing. -/
theorem frame_auto_trigger_face_manual (m : Monitor) (now : ℚ)
    (f : FaceSignals) (lbr : Bool) (h : m.auto_mode = false) :
    frame_auto_trigger_face m now f lbr = (m, []) := by
  simp [frame_auto_trigger_face, h]

/-- In MANUAL mode the pose-section auto trigger does nothing. -/
theorem pose_auto_trigger_manual (m : Monitor) (now : ℚ) (pd : PostureData)
    (h : m.auto_mode = false) :
    pose_auto_trigger m now pd = (m, []) := by
  simp [pose_auto_trigger, h]

/-- `pose_tilt_step` preserves the mode flag. -/
theorem pose_tilt_step_auto (m : Monitor) (now : ℚ) (pd : PostureData) :
    (pose_tilt_step m now pd).1.auto_mode = m.auto_mode := by
  unfold pose_tilt_step
  split
  · exact send_notification_auto _ _ _ _ _ _
  · rfl

/-- `pose_tilt_step` never reports an exercise start. -/
theorem pose_tilt_step_no_start (m : Monitor) (now : ℚ) (pd : PostureData) :
    Event.exerciseStarted ∉ (pose_tilt_step m now pd).2 := by
  unfold pose_tilt_step
  split
  · exact send_notification_no_start _ _ _ _ _ _
  · simp

/-- `pose_slouch_step` preserves the mode flag. -/
theorem pose_slouch_step_auto (m : Monitor) (now : ℚ) (pd : PostureData) :
    (pose_slouch_step m now pd).1.auto_mode = m.auto_mode := by
  unfold pose_slouch_step
  split
  · exact send_notification_auto _ _ _ _ _ _
  · rfl

/-- `pose_slouch_step` never reports an exercise start. -/
theorem pose_slouch_step_no_start (m : Monitor) (now : ℚ)
    (pd : PostureData) :
    Event.exerciseStarted ∉ (pose_slouch_step m now pd).2 := by
  unfold pose_slouch_step
  split
  · exact send_notification_no_start _ _ _ _ _ _
  · simp

/-- `screen_time_step` preserves the mode flag. -/
theorem screen_time_step_auto (m : Monitor) (now : ℚ) :
    (screen_time_step m now).1.auto_mode = m.auto_mode := by
  unfold screen_time_step
  repeat' split
  all_goals simp [send_notification_auto]

/-- `screen_time_step` never reports an exercise start. -/
theorem screen_time_step_no_start (m : Monitor) (now : ℚ) :
    Event.exerciseStarted ∉ (screen_time_step m now).2 := by
  unfold screen_time_step
  repeat' split
  all_goals simp [send_notification_no_start]

/-- `system_health_step` preserves the mode flag and never reports an
exercise start. -/
theorem system_health_step_manual (m : Monitor) (now : ℚ) (sys : SysEnv) :
    (system_health_step m now sys).1.auto_mode = m.auto_mode ∧
    Event.exerciseStarted ∉ (system_health_step m now sys).2.1 := by
  unfold system_health_step
  split
  · split
    · exact temp_alert_loop_manual _ _ _
    · simp
  · simp

/-- In MANUAL mode the face section of a tick keeps the mode manual and
never starts an exercise. -/
theorem process_frame_face_manual (m : Monitor) (now : ℚ) (f : FaceSignals)
    (h : m.auto_mode = false) :
    (process_frame_face m now f).1.auto_mode = false ∧
    Event.exerciseStarted ∉ (process_frame_face m now f).2 := by
  simp only [process_frame_face]
  have h0 : (frame_gaze_step m f).auto_mode = false := h
  have h1 : (frame_exercise_step (frame_gaze_step m f) now f).1.auto_mode
      = false := by rw [frame_exercise_step_auto]; exact h0
  have h2 : (frame_proximity_step
      (frame_exercise_step (frame_gaze_step m f) now f).1 now f).1.auto_mode
      = false := by rw [frame_proximity_step_auto]; exact h1
  have hB : (frame_blink_step (frame_proximity_step
      (frame_exercise_step (frame_gaze_step m f) now f).1 now f).1 now
      f).auto_mode = false := by rw [frame_blink_step_auto]; exact h2
  have h3 : ∀ lbr, (frame_blink_alert_step (frame_blink_step
      (frame_proximity_step
        (frame_exercise_step (frame_gaze_step m f) now f).1 now f).1 now f)
      now lbr).1.auto_mode = false := by
    intro lbr; rw [frame_blink_alert_step_auto]; exact hB
  rw [frame_auto_trigger_face_manual _ now f _ (h3 _)]
  exact ⟨h3 _, by
    simp [frame_exercise_step_no_start, frame_proximity_step_no_start,
      frame_blink_alert_step_no_start]⟩

/-- In MANUAL mode the pose section of a tick keeps the mode manual and
never starts an exercise. -/
theorem process_frame_pose_manual (m : Monitor) (now : ℚ) (pd : PostureData)
    (h : m.auto_mode = false) :
    (process_frame_pose m now pd).1.auto_mode = false ∧
    Event.exerciseStarted ∉ (process_frame_pose m now pd).2 := by
  simp only [process_frame_pose]
  split
  · have h1 : (pose_tilt_step m now pd).1.auto_mode = false := by
      rw [pose_tilt_step_auto]; exact h
    have h2 : (pose_slouch_step (pose_tilt_step m now pd).1 now
        pd).1.auto_mode = false := by rw [pose_slouch_step_auto]; exact h1
    rw [pose_auto_trigger_manual _ now pd h2]
    exact ⟨h2, by
      simp [pose_tilt_step_no_start, pose_slouch_step_no_start]⟩
  · exact ⟨h, by simp⟩

/-- In MANUAL mode one whole tick keeps the mode manual and never starts
an exercise. -/
theorem process_frame_manual (m : Monitor) (now : ℚ) (env : FrameEnv)
    (sys : SysEnv) (h : m.auto_mode = false) :
    (process_frame m now env sys).1.auto_mode = false ∧
    Event.exerciseStarted ∉ (process_frame m now env sys).2.1 := by
  have hrest : ∀ (mm : Monitor), mm.auto_mode = false →
      (system_health_step (screen_time_step mm now).1 now sys).1.auto_mode
        = false ∧
      Event.exerciseStarted ∉ (screen_time_step mm now).2 ∧
      Event.exerciseStarted ∉
        (system_health_step (screen_time_step mm now).1 now sys).2.1 := by
    intro mm hmm
    refine ⟨?_, screen_time_step_no_start mm now,
      (system_health_step_manual _ now sys).2⟩
    rw [(system_health_step_manual _ now sys).1, screen_time_step_auto]
    exact hmm
  simp only [process_frame]
  split
  · exact ⟨h, by simp⟩
  · have hm1 : (if m.auto_mode = true ∧ should_check_auto_mode m now = true
        then { m with auto_mode_last_check := now } else m) = m :=
      if_neg (by simp [h])
    rw [hm1]
    rcases env with ⟨face, post⟩
    cases face with
    | none =>
      cases post with
      | none =>
        rcases hrest m h with ⟨ha, hs, hh⟩
        exact ⟨ha, by simp [hs, hh]⟩
      | some pd =>
        rcases process_frame_pose_manual m now pd h with ⟨hpa, hpn⟩
        rcases hrest _ hpa with ⟨ha, hs, hh⟩
        exact ⟨ha, by simp [hpn, hs, hh]⟩
    | some f =>
      rcases process_frame_face_manual m now f h with ⟨hfa, hfn⟩
      cases post with
      | none =>
        rcases hrest _ hfa with ⟨ha, hs, hh⟩
        exact ⟨ha, by simp [hfn, hs, hh]⟩
      | some pd =>
        rcases process_frame_pose_manual _ now pd hfa with ⟨hpa, hpn⟩
        rcases hrest _ hpa with ⟨ha, hs, hh⟩
        exact ⟨ha, by simp [hfn, hpn, hs, hh]⟩

/-- C9: in MANUAL mode, no sequence of per-tick signals ever makes the
tick-processing logic invoke `StartExercise()`: over any run of frames
the mode stays manual and no `exerciseStarted` event is ever emitted, so
an exercise can begin only through an explicit user-initiated call. -/
theorem manual_mode_never_starts_exercise (m : Monitor)
    (ticks : List (ℚ × FrameEnv × SysEnv)) (h : m.auto_mode = false) :
    (run_frames m ticks).1.auto_mode = false ∧
    Event.exerciseStarted ∉ (run_frames m ticks).2 := by
  induction ticks generalizing m with
  | nil => exact ⟨h, by simp [run_frames]⟩
  | cons p rest ih =>
    obtain ⟨t, env, sys⟩ := p
    rcases process_frame_manual m t env sys h with ⟨ha, hn⟩
    rcases ih _ ha with ⟨ha2, hn2⟩
    simp only [run_frames]
    exact ⟨ha2, by simp [hn, hn2]⟩

/-- Witness for `manual_mode_never_starts_exercise`: a manual-mode tick
with proximity alert raised starts no exercise. -/
theorem manual_mode_never_starts_exercise_witness :
    (initMonitor false 0 true true).auto_mode = false ∧
    Event.exerciseStarted ∉
      (run_frames (initMonitor false 0 true true)
        [(31, (⟨some ⟨"center", true, 1⟩, none⟩ : FrameEnv),
          (⟨none, []⟩ : SysEnv))]).2 :=
  ⟨rfl, (manual_mode_never_starts_exercise (initMonitor false 0 true true)
    [(31, (⟨some ⟨"center", true, 1⟩, none⟩ : FrameEnv),
      (⟨none, []⟩ : SysEnv))] rfl).2⟩

end SafeWarner
